import Mathlib

/-!
Verification development for the LinkedIn group-connection bot.

The repository contains two variants of the automation flow:
the collect-all-then-connect variant (the file whose name is unknown,
called part_000 below) and the interleaved scroll-and-connect variant
(linkedinBot.ts).  The definitions below are shallow embeddings of the
functions of those files: DOM queries and clicks become fields of an
explicit environment record, promise rejection becomes `Except`, the
JavaScript string method `includes` becomes `strIncludes`, and the
mutable loop variables become explicit state records threaded through
recursive functions.
-/

/-! ## String includes (JavaScript `String.prototype.includes`) -/

/-- Does the character list `hay` start with the character list `needle`? -/
def matchesAt : List Char → List Char → Bool
  | [], _ => true
  | _ :: _, [] => false
  | a :: as, b :: bs => a == b && matchesAt as bs

/-- Does `hay` contain `needle` as a contiguous run, starting at any position? -/
def containsFrom (needle : List Char) : List Char → Bool
  | [] => matchesAt needle []
  | b :: bs => matchesAt needle (b :: bs) || containsFrom needle bs

/-- Shallow embedding of the JavaScript call `s.includes(sub)`. -/
def strIncludes (s sub : String) : Bool :=
  containsFrom sub.data s.data

/-! ## Listing Collector (part_000, `connectWithGroupMembers`, collection phase)

A member card as observed in the listing: each `$eval` extraction is given
with its failure already folded to `none`, matching the source where both
extractions carry `.catch(() => null)`. -/

structure MemberCard where
  profileUrl : Option String
  degreeText : Option String
deriving DecidableEq

/-- Embedding of the degree filter of part_000 line 93: a degree hint is
disqualifying when it is present and contains the substring `1st` or `You`.
A missing hint is never disqualifying. -/
def disqualifyingDegree : Option String → Bool
  | none => false
  | some d => strIncludes d "1st" || strIncludes d "You"

/-- One card of the collection loop of part_000 (lines 83-100): push the
profile URL onto the accumulator exactly when it was extracted, it is not
already present, and the degree hint is not disqualifying. -/
def admitCard (acc : List String) (c : MemberCard) : List String :=
  match c.profileUrl with
  | some url =>
      if url ∉ acc ∧ disqualifyingDegree c.degreeText = false then acc ++ [url]
      else acc
  | none => acc

/-- The collection pass of part_000: fold `admitCard` over the currently
visible member cards, starting from the empty `profileUrls` array.  In the
source the surrounding while loop breaks unconditionally after this single
pass (its scroll logic is commented out), so this is the whole Candidate
Set the Collector returns. -/
def collectProfiles (cards : List MemberCard) : List String :=
  cards.foldl admitCard []

/-! ## Dialog Resolver (`handleConnectionDialog`) -/

/-- Environment of one invocation of `handleConnectionDialog`: whether the
send-button query itself raises, whether some selector variant matches a
send button, and whether clicking it raises. -/
structure DialogEnv where
  searchThrows : Bool
  sendButtonFound : Bool
  clickThrows : Bool
deriving DecidableEq

/-- Body of `handleConnectionDialog` before its catch: the settle wait and
send-button query (which may raise), then, if a send button matched, the
click (which may raise) and a `true` return; otherwise `false`. -/
def handleDialogBody (d : DialogEnv) : Except String Bool :=
  if d.searchThrows then Except.error "dialog search failed"
  else if d.sendButtonFound then
    if d.clickThrows then Except.error "send click failed"
    else Except.ok true
  else Except.ok false

/-- Embedding of `handleConnectionDialog`: the whole body runs inside a
try/catch whose catch logs and returns `false`. -/
def handleConnectionDialog (d : DialogEnv) : Bool :=
  match handleDialogBody d with
  | Except.ok b => b
  | Except.error _ => false

/-! ## Candidate Connector (part_000, `tryConnectWithProfile`) -/

/-- Environment of one invocation of `tryConnectWithProfile`: which DOM
probes match on the profile page and which awaited actions raise. -/
structure ProfileEnv where
  navigationThrows : Bool
  directConnectButton : Bool
  directClickThrows : Bool
  jsClickThrows : Bool
  moreButton : Bool
  moreClickThrows : Bool
  connectOption : Bool
  optionClickThrows : Bool
  dialog : DialogEnv
deriving DecidableEq

/-- Observable actions the Connector performs against the page, in order. -/
inductive BotAction where
  | Navigate
  | ClickDirect
  | JsClickDirect
  | ClickMore
  | ClickConnectOption
  | ResolveDialog
deriving DecidableEq

/-- Embedding of the body of `tryConnectWithProfile` (part_000 lines
164-225) together with the trace of actions it performs: navigate, then
either the direct-button path (standard click, falling back to a
JavaScript click when the standard click raises), or the More-dropdown
path, each delegating to the Dialog Resolver once a connect affordance was
clicked; if no affordance is found on any path the boolean `connected`
stays false.  An `Except.error` value is a raised exception reaching the
catch of the function. -/
def tryConnectRun (e : ProfileEnv) : Except String Bool × List BotAction :=
  if e.navigationThrows then (Except.error "navigation failed", [BotAction.Navigate])
  else if e.directConnectButton then
    if e.directClickThrows then
      if e.jsClickThrows then
        (Except.error "js click failed",
         [BotAction.Navigate, BotAction.ClickDirect, BotAction.JsClickDirect])
      else
        (Except.ok (handleConnectionDialog e.dialog),
         [BotAction.Navigate, BotAction.ClickDirect, BotAction.JsClickDirect, BotAction.ResolveDialog])
    else
      (Except.ok (handleConnectionDialog e.dialog),
       [BotAction.Navigate, BotAction.ClickDirect, BotAction.ResolveDialog])
  else if e.moreButton then
    if e.moreClickThrows then
      (Except.error "more click failed", [BotAction.Navigate, BotAction.ClickMore])
    else if e.connectOption then
      if e.optionClickThrows then
        (Except.error "option click failed",
         [BotAction.Navigate, BotAction.ClickMore, BotAction.ClickConnectOption])
      else
        (Except.ok (handleConnectionDialog e.dialog),
         [BotAction.Navigate, BotAction.ClickMore, BotAction.ClickConnectOption, BotAction.ResolveDialog])
    else (Except.ok false, [BotAction.Navigate, BotAction.ClickMore])
  else (Except.ok false, [BotAction.Navigate])

/-- Embedding of `tryConnectWithProfile` as the caller sees it: the result
of the body, with any raised exception caught and turned into `false`. -/
def tryConnectWithProfile (e : ProfileEnv) : Bool :=
  match (tryConnectRun e).1 with
  | Except.ok b => b
  | Except.error _ => false

/-- The run reports the spec-level outcome `NoAffordanceFound` exactly when
the body completed normally with `connected = false` without ever
delegating to the Dialog Resolver: no connect path was found. -/
def reportsNoAffordanceFound (e : ProfileEnv) : Bool :=
  match tryConnectRun e with
  | (Except.ok false, trace) => !(trace.contains BotAction.ResolveDialog)
  | _ => false

/-! ## Campaign Orchestrator (part_000, `connectWithGroupMembers`, connection phase) -/

/-- The hardcoded daily cap of part_000 line 130. -/
def MAX_CONNECTIONS_PER_DAY : Nat := 25

/-- Spec-level outcome of one connection attempt. -/
inductive ConnectionAttemptResult where
  | Connected
  | AlreadyConnectedOrPending
  | NoAffordanceFound
  | Error (reason : String)
deriving DecidableEq

/-- What the Orchestrator receives from one awaited
`tryConnectWithProfile(url)` call: either a resolved boolean or a
rejection. -/
inductive ConnectOutcome where
  | ok (connected : Bool)
  | exn (reason : String)
deriving DecidableEq

/-- The `.catch(error => false)` the Orchestrator attaches to each
connection attempt: a rejection becomes `false`. -/
def outcomeToBool : ConnectOutcome → Bool
  | ConnectOutcome.ok b => b
  | ConnectOutcome.exn _ => false

/-- How the boolean protocol of part_000 encodes the spec-level result:
`tryConnectWithProfile` resolves `true` exactly when the Dialog Resolver
confirmed the dialog (`Connected`); every other outcome resolves `false`,
and an unexpected failure is a rejection caught by the Orchestrator. -/
def resultToOutcome : ConnectionAttemptResult → ConnectOutcome
  | ConnectionAttemptResult.Connected => ConnectOutcome.ok true
  | ConnectionAttemptResult.AlreadyConnectedOrPending => ConnectOutcome.ok false
  | ConnectionAttemptResult.NoAffordanceFound => ConnectOutcome.ok false
  | ConnectionAttemptResult.Error r => ConnectOutcome.exn r

/-- Final counters of one Orchestrator run. -/
structure RunResult where
  successCount : Nat
  processedCount : Nat
deriving DecidableEq

/-- Embedding of the connection loop of part_000 (lines 133-155): before
each candidate the cap is compared against the success counter and the
loop breaks when it is reached; otherwise the candidate is processed and
the counter is incremented exactly when the caught outcome is `true`. -/
def runLoop (cap : Nat) (count : Nat) (processed : Nat) : List ConnectOutcome → RunResult
  | [] => ⟨count, processed⟩
  | o :: rest =>
    if cap ≤ count then ⟨count, processed⟩
    else runLoop cap (if outcomeToBool o then count + 1 else count) (processed + 1) rest

/-- The connection phase of `connectWithGroupMembers`: run the loop over
the outcomes of the collected candidates with both counters at zero. -/
def connectWithGroupMembers (cap : Nat) (outcomes : List ConnectOutcome) : RunResult :=
  runLoop cap 0 0 outcomes

/-! ## Scroll termination (linkedinBot.ts lines 158-179) -/

/-- Mutable scroll state of the collection loop: the last observed page
height and the count of consecutive no-growth scroll cycles. -/
structure ScrollState where
  previousHeight : Nat
  noNewContentCount : Nat
deriving DecidableEq

/-- One scroll cycle comparison of linkedinBot.ts lines 166-177: if the
current height equals the previous one the no-growth counter is
incremented and the loop breaks (`none`) once it reaches 3; otherwise the
counter resets to zero.  The previous height becomes the current one. -/
def scrollStep (s : ScrollState) (currentHeight : Nat) : Option ScrollState :=
  if currentHeight = s.previousHeight then
    if 3 ≤ s.noNewContentCount + 1 then none
    else some ⟨currentHeight, s.noNewContentCount + 1⟩
  else some ⟨currentHeight, 0⟩

/-- The scroll phase iterated over a sequence of observed heights: `none`
means the loop broke out within the sequence. -/
def scrollRun (s : ScrollState) : List Nat → Option ScrollState
  | [] => some s
  | h :: rest =>
    match scrollStep s h with
    | none => none
    | some s2 => scrollRun s2 rest

/-! ## BotAction Primitives (`randomDelay`) -/

/-- The delay computed by `randomDelay(min, max)` for a given value `r` of
`Math.random()`: `Math.floor(r * (max - min + 1)) + min`. -/
def randomDelayValue (mn mx : ℤ) (r : ℚ) : ℤ :=
  Int.floor (r * ((mx - mn + 1 : ℤ) : ℚ)) + mn

/-! ## Interleaved variant (linkedinBot.ts, per-card processing) -/

/-- Mutable run state of the interleaved loop of linkedinBot.ts:
the success counter and the `processedProfiles` set (as a list). -/
structure RunState where
  connectionsAttempted : Nat
  processedProfiles : List String
deriving DecidableEq

/-- Embedding of the `$eval('.pv-top-card')` check of linkedinBot.ts lines
113-118: the profile is treated as already connected or pending when the
top-card text is present and contains `Connected`, `Pending` or `Message`. -/
def statusAlreadyConnected : Option String → Bool
  | none => false
  | some t =>
      strIncludes t "Connected" || strIncludes t "Pending" || strIncludes t "Message"

/-- Environment of one member-card iteration of the interleaved loop of
linkedinBot.ts (lines 83-155): each DOM extraction that can raise is an
`Except`, each probe that cannot is an `Option` or `Bool`, and each click
that can raise is a `Bool` flag. -/
structure CardEnv where
  degreeTextE : Except String (Option String)
  directCardButton : Bool
  directCardClickThrows : Bool
  cardDialog : DialogEnv
  profileUrlE : Except String String
  gotoThrows : Bool
  topCardTextE : Except String (Option String)
  profileMoreButton : Bool
  moreClickThrows : Bool
  connectInDropdown : Bool
  dropdownClickThrows : Bool
  profileDialog : DialogEnv

/-- Embedding of the body of one member-card iteration of linkedinBot.ts
(lines 83-155).  Any raised exception is caught by the per-card catch
(line 151), which logs and continues: the state reached at the point of
the throw is kept.  On the direct-card path (lines 92-99) the dialog
result is discarded and the counter is incremented unconditionally after
a successful click; on the profile-visit path the dedup set is consulted
(line 102) and the URL is inserted (lines 120 and 148). -/
def processCard (e : CardEnv) (s : RunState) : RunState :=
  match e.degreeTextE with
  | Except.error _ => s
  | Except.ok dt =>
    if disqualifyingDegree dt then s
    else if e.directCardButton then
      if e.directCardClickThrows then s
      else { s with connectionsAttempted := s.connectionsAttempted + 1 }
    else
      match e.profileUrlE with
      | Except.error _ => s
      | Except.ok url =>
        if url ∈ s.processedProfiles then s
        else if e.gotoThrows then s
        else
          match e.topCardTextE with
          | Except.error _ => s
          | Except.ok status =>
            if statusAlreadyConnected status then
              { s with processedProfiles := s.processedProfiles ++ [url] }
            else if e.profileMoreButton then
              if e.moreClickThrows then s
              else if e.connectInDropdown then
                if e.dropdownClickThrows then s
                else
                  { connectionsAttempted :=
                      s.connectionsAttempted +
                        (if handleConnectionDialog e.profileDialog then 1 else 0),
                    processedProfiles := s.processedProfiles ++ [url] }
              else { s with processedProfiles := s.processedProfiles ++ [url] }
            else { s with processedProfiles := s.processedProfiles ++ [url] }

/-! ## Helper lemmas about the Collector fold -/

theorem admitCard_some (acc : List String) (url : String) (dt : Option String) :
    admitCard acc ⟨some url, dt⟩ =
      if url ∉ acc ∧ disqualifyingDegree dt = false then acc ++ [url] else acc := rfl

theorem admitCard_none (acc : List String) (dt : Option String) :
    admitCard acc ⟨none, dt⟩ = acc := rfl

theorem admitCard_nodup (acc : List String) (c : MemberCard) (h : acc.Nodup) :
    (admitCard acc c).Nodup := by
  obtain ⟨pu, dt⟩ := c
  cases pu with
  | none => rw [admitCard_none]; exact h
  | some url =>
      rw [admitCard_some]
      by_cases hcond : url ∉ acc ∧ disqualifyingDegree dt = false
      · rw [if_pos hcond]
        refine List.Nodup.append h (List.nodup_singleton url) ?_
        intro a ha hb
        rw [List.mem_singleton] at hb
        subst hb
        exact hcond.1 ha
      · rw [if_neg hcond]
        exact h

theorem foldl_admitCard_nodup (cards : List MemberCard) (acc : List String)
    (h : acc.Nodup) : (cards.foldl admitCard acc).Nodup := by
  induction cards generalizing acc with
  | nil => exact h
  | cons c cs ih => exact ih (admitCard acc c) (admitCard_nodup acc c h)

theorem mem_admitCard (acc : List String) (c : MemberCard) (u : String)
    (h : u ∈ admitCard acc c) :
    u ∈ acc ∨ (c.profileUrl = some u ∧ disqualifyingDegree c.degreeText = false) := by
  obtain ⟨pu, dt⟩ := c
  cases pu with
  | none =>
      rw [admitCard_none] at h
      exact Or.inl h
  | some url =>
      rw [admitCard_some] at h
      by_cases hcond : url ∉ acc ∧ disqualifyingDegree dt = false
      · rw [if_pos hcond] at h
        rcases List.mem_append.mp h with h1 | h1
        · exact Or.inl h1
        · rw [List.mem_singleton] at h1
          subst h1
          exact Or.inr ⟨rfl, hcond.2⟩
      · rw [if_neg hcond] at h
        exact Or.inl h

theorem mem_foldl_admitCard (cards : List MemberCard) (acc : List String) (u : String)
    (h : u ∈ cards.foldl admitCard acc) :
    u ∈ acc ∨ ∃ c ∈ cards, c.profileUrl = some u ∧ disqualifyingDegree c.degreeText = false := by
  induction cards generalizing acc with
  | nil => exact Or.inl h
  | cons c cs ih =>
      rcases ih (admitCard acc c) h with h1 | h1
      · rcases mem_admitCard acc c u h1 with h2 | h2
        · exact Or.inl h2
        · exact Or.inr ⟨c, List.mem_cons_self c cs, h2⟩
      · rcases h1 with ⟨c2, hc2, hp⟩
        exact Or.inr ⟨c2, List.mem_cons_of_mem c hc2, hp⟩

theorem mem_admitCard_of_mem (acc : List String) (c : MemberCard) (u : String)
    (h : u ∈ acc) : u ∈ admitCard acc c := by
  obtain ⟨pu, dt⟩ := c
  cases pu with
  | none => rw [admitCard_none]; exact h
  | some url =>
      rw [admitCard_some]
      by_cases hcond : url ∉ acc ∧ disqualifyingDegree dt = false
      · rw [if_pos hcond]
        exact List.mem_append_left _ h
      · rw [if_neg hcond]
        exact h

theorem mem_foldl_admitCard_of_mem (cards : List MemberCard) (acc : List String)
    (u : String) (h : u ∈ acc) : u ∈ cards.foldl admitCard acc := by
  induction cards generalizing acc with
  | nil => exact h
  | cons c cs ih => exact ih (admitCard acc c) (mem_admitCard_of_mem acc c u h)

/-! ## Helper lemmas about the Orchestrator loop -/

theorem runLoop_cons (cap count processed : Nat) (o : ConnectOutcome)
    (rest : List ConnectOutcome) :
    runLoop cap count processed (o :: rest) =
      if cap ≤ count then ⟨count, processed⟩
      else runLoop cap (if outcomeToBool o then count + 1 else count)
        (processed + 1) rest := rfl

theorem runLoop_le_cap (cap count processed : Nat) (outcomes : List ConnectOutcome)
    (h : count ≤ cap) : (runLoop cap count processed outcomes).successCount ≤ cap := by
  induction outcomes generalizing count processed with
  | nil => exact h
  | cons o rest ih =>
      unfold runLoop
      by_cases hc : cap ≤ count
      · rw [if_pos hc]
        exact h
      · rw [if_neg hc]
        apply ih
        by_cases hb : outcomeToBool o = true
        · rw [if_pos hb]; omega
        · rw [if_neg hb]; omega

theorem runLoop_exn_eq_false (cap count processed : Nat)
    (pre post : List ConnectOutcome) (r : String) :
    runLoop cap count processed (pre ++ ConnectOutcome.exn r :: post) =
      runLoop cap count processed (pre ++ ConnectOutcome.ok false :: post) := by
  induction pre generalizing count processed with
  | nil => simp [runLoop, outcomeToBool]
  | cons o pre ih =>
      simp only [List.cons_append]
      unfold runLoop
      by_cases hc : cap ≤ count
      · rw [if_pos hc, if_pos hc]
      · rw [if_neg hc, if_neg hc]
        exact ih _ _

/-! ## Claim theorems -/

/-- C1: over any candidate sequence and any sequence of Connector outcomes,
the final success counter never exceeds the daily cap (whose hardcoded
value is 25): the cap is compared before each candidate and the loop stops
once the counter reaches it; with cap 2 and three candidates all
resolving `true`, only the first two are processed and the returned
success count is 2. -/
theorem cap_never_exceeded :
    MAX_CONNECTIONS_PER_DAY = 25 ∧
    (∀ (cap : Nat) (outcomes : List ConnectOutcome),
        (connectWithGroupMembers cap outcomes).successCount ≤ cap) ∧
    connectWithGroupMembers 2
        [ConnectOutcome.ok true, ConnectOutcome.ok true, ConnectOutcome.ok true] =
      ⟨2, 2⟩ := by
  refine ⟨rfl, ?_, by decide⟩
  intro cap outcomes
  exact runLoop_le_cap cap 0 0 outcomes (Nat.zero_le cap)

/-- C2: when the cap is not yet reached, processing one candidate
increments the success counter exactly when the spec-level result is
`Connected`; `NoAffordanceFound`, `AlreadyConnectedOrPending` and `Error`
leave it unchanged, and a `NoAffordanceFound` followed by a `Connected`
yields a success count of 1 with both candidates processed. -/
theorem success_iff_connected :
    (∀ (cap count processed : Nat) (r : ConnectionAttemptResult)
        (rest : List ConnectOutcome), count < cap →
        runLoop cap count processed (resultToOutcome r :: rest) =
          runLoop cap
            (count + (if r = ConnectionAttemptResult.Connected then 1 else 0))
            (processed + 1) rest) ∧
    connectWithGroupMembers 25
        [resultToOutcome ConnectionAttemptResult.NoAffordanceFound,
         resultToOutcome ConnectionAttemptResult.Connected] = ⟨1, 2⟩ := by
  constructor
  · intro cap count processed r rest h
    rw [runLoop_cons, if_neg (by omega)]
    cases r <;> simp [resultToOutcome, outcomeToBool]
  · decide

/-- C2 witness: with the cap not reached, a `Connected` result advances
the success counter by one and the processed counter by one. -/
theorem success_iff_connected_witness :
    runLoop 25 0 0 [resultToOutcome ConnectionAttemptResult.Connected] =
      runLoop 25
        (0 + (if ConnectionAttemptResult.Connected = ConnectionAttemptResult.Connected
              then 1 else 0)) (0 + 1) [] :=
  success_iff_connected.1 25 0 0 ConnectionAttemptResult.Connected [] (by decide)

/-- C3: every Candidate Set the Collector produces is free of duplicates,
every member comes from a card whose profile URL it is and whose degree
hint is not disqualifying, and the listing A(2nd), B(1st), C(2nd), A(2nd)
yields exactly A, C in order. -/
theorem collector_dedup_and_degree_filter (cards : List MemberCard) :
    (collectProfiles cards).Nodup ∧
    (∀ u ∈ collectProfiles cards,
        ∃ c ∈ cards, c.profileUrl = some u ∧ disqualifyingDegree c.degreeText = false) ∧
    collectProfiles
        [⟨some "A", some "2nd"⟩, ⟨some "B", some "1st"⟩,
         ⟨some "C", some "2nd"⟩, ⟨some "A", some "2nd"⟩] = ["A", "C"] := by
  refine ⟨foldl_admitCard_nodup cards [] List.nodup_nil, ?_, by decide⟩
  intro u hu
  rcases mem_foldl_admitCard cards [] u hu with h | h
  · exact absurd h (List.not_mem_nil u)
  · exact h

/-- C3 witness: on the four-card listing, the output is duplicate-free and
the admitted candidate A is backed by a card with a clean degree hint. -/
theorem collector_dedup_and_degree_filter_witness :
    (collectProfiles
        [⟨some "A", some "2nd"⟩, ⟨some "B", some "1st"⟩,
         ⟨some "C", some "2nd"⟩, ⟨some "A", some "2nd"⟩]).Nodup ∧
    (∃ c ∈ ([⟨some "A", some "2nd"⟩, ⟨some "B", some "1st"⟩,
             ⟨some "C", some "2nd"⟩, ⟨some "A", some "2nd"⟩] : List MemberCard),
        c.profileUrl = some "A" ∧ disqualifyingDegree c.degreeText = false) := by
  have h := collector_dedup_and_degree_filter
      [⟨some "A", some "2nd"⟩, ⟨some "B", some "1st"⟩,
       ⟨some "C", some "2nd"⟩, ⟨some "A", some "2nd"⟩]
  exact ⟨h.1, h.2.1 "A" (by decide)⟩

/-- C6: a rejected connection attempt is caught at the candidate boundary
and behaves exactly as a resolved `false`: the run over any surrounding
candidates is unchanged, so no single failure aborts the run, and a run
with a failing first candidate still produces its final counts. -/
theorem candidate_error_isolated :
    (∀ (cap count processed : Nat) (pre post : List ConnectOutcome) (r : String),
        runLoop cap count processed (pre ++ ConnectOutcome.exn r :: post) =
          runLoop cap count processed (pre ++ ConnectOutcome.ok false :: post)) ∧
    connectWithGroupMembers 25
        [ConnectOutcome.exn "navigation failed", ConnectOutcome.ok true] = ⟨1, 2⟩ :=
  ⟨fun cap count processed pre post r =>
      runLoop_exn_eq_false cap count processed pre post r, by decide⟩

/-- C8: a card whose degree hint is absent is admitted by the Collector
whenever its profile URL was extracted and is new: the missing hint is
not disqualifying. -/
theorem missing_degree_hint_admitted (cards1 cards2 : List MemberCard)
    (pu : Option String) (dt : Option String) (u : String)
    (hurl : pu = some u) (hdeg : dt = none)
    (hnew : u ∉ cards1.foldl admitCard ([] : List String)) :
    u ∈ collectProfiles (cards1 ++ (⟨pu, dt⟩ : MemberCard) :: cards2) := by
  subst hurl
  subst hdeg
  unfold collectProfiles
  rw [List.foldl_append, List.foldl_cons]
  apply mem_foldl_admitCard_of_mem
  rw [admitCard_some, if_pos ⟨hnew, rfl⟩]
  exact List.mem_append_right _ (List.mem_singleton.mpr rfl)

/-- C8 witness: a card for A with no degree hint, preceded by a filtered
1st-degree card, is admitted to the Candidate Set. -/
theorem missing_degree_hint_admitted_witness :
    "A" ∈ collectProfiles [⟨some "B", some "1st"⟩, ⟨some "A", none⟩] :=
  missing_degree_hint_admitted [⟨some "B", some "1st"⟩] [] (some "A") none "A"
    rfl rfl (by decide)

/-- C4: the scroll phase of the collection loop breaks exactly when the
observed height is unchanged and the no-growth counter reaches 3: a
changed height resets the counter to zero, and from a counter of zero
three consecutive cycles observing the same height terminate the loop. -/
theorem scroll_termination :
    (∀ (s : ScrollState) (h : Nat), h ≠ s.previousHeight →
        scrollStep s h = some ⟨h, 0⟩) ∧
    (∀ (s : ScrollState) (h : Nat),
        scrollStep s h = none ↔ h = s.previousHeight ∧ 2 ≤ s.noNewContentCount) ∧
    (∀ s : ScrollState, s.noNewContentCount = 0 →
        scrollRun s [s.previousHeight, s.previousHeight, s.previousHeight] = none) := by
  refine ⟨?_, ?_, ?_⟩
  · intro s h hne
    simp [scrollStep, hne]
  · intro s h
    unfold scrollStep
    by_cases he : h = s.previousHeight
    · rw [if_pos he]
      by_cases hc : 3 ≤ s.noNewContentCount + 1
      · rw [if_pos hc]
        simp [he]
        omega
      · rw [if_neg hc]
        simp [he]
        omega
    · rw [if_neg he]
      simp [he]
  · intro s h0
    simp [scrollRun, scrollStep, h0]

/-- C4 witness: a height change resets the counter, breaking happens only
once the counter has reached two before the third equal observation, and
from height 100 with a zero counter three equal observations stop the
loop. -/
theorem scroll_termination_witness :
    scrollStep ⟨100, 0⟩ 50 = some ⟨50, 0⟩ ∧
    (scrollStep ⟨100, 0⟩ 100 = none ↔ (100 : Nat) = 100 ∧ 2 ≤ (0 : Nat)) ∧
    scrollRun ⟨100, 0⟩ [100, 100, 100] = none :=
  ⟨scroll_termination.1 ⟨100, 0⟩ 50 (by decide),
   scroll_termination.2.1 ⟨100, 0⟩ 100,
   scroll_termination.2.2 ⟨100, 0⟩ rfl⟩

/-- C5: on a profile whose direct connect probe finds nothing but whose
More trigger and menu connect entry are present, and whose clicks do not
raise, the Connector activates the menu, clicks the connect entry,
delegates to the Dialog Resolver, returns the verdict of the Resolver,
and does not report the no-affordance outcome. -/
theorem secondary_path_taken (e : ProfileEnv)
    (hnav : e.navigationThrows = false)
    (hdirect : e.directConnectButton = false)
    (hmore : e.moreButton = true)
    (hmoreClick : e.moreClickThrows = false)
    (hopt : e.connectOption = true)
    (hoptClick : e.optionClickThrows = false) :
    tryConnectRun e =
      (Except.ok (handleConnectionDialog e.dialog),
       [BotAction.Navigate, BotAction.ClickMore, BotAction.ClickConnectOption,
        BotAction.ResolveDialog]) ∧
    reportsNoAffordanceFound e = false := by
  have hrun : tryConnectRun e =
      (Except.ok (handleConnectionDialog e.dialog),
       [BotAction.Navigate, BotAction.ClickMore, BotAction.ClickConnectOption,
        BotAction.ResolveDialog]) := by
    simp [tryConnectRun, hnav, hdirect, hmore, hmoreClick, hopt, hoptClick]
  refine ⟨hrun, ?_⟩
  unfold reportsNoAffordanceFound
  rw [hrun]
  cases hb : handleConnectionDialog e.dialog
  · simp [List.contains]
  · simp

/-- C5 witness: a concrete profile environment with the direct affordance
absent and the secondary path present follows the secondary path and does
not report the no-affordance outcome. -/
theorem secondary_path_taken_witness :
    tryConnectRun ⟨false, false, false, false, true, false, true, false,
        ⟨false, true, false⟩⟩ =
      (Except.ok (handleConnectionDialog ⟨false, true, false⟩),
       [BotAction.Navigate, BotAction.ClickMore, BotAction.ClickConnectOption,
        BotAction.ResolveDialog]) ∧
    reportsNoAffordanceFound ⟨false, false, false, false, true, false, true, false,
        ⟨false, true, false⟩⟩ = false :=
  secondary_path_taken
    ⟨false, false, false, false, true, false, true, false, ⟨false, true, false⟩⟩
    rfl rfl rfl rfl rfl rfl

/-- C7: the Dialog Resolver is total over its two outcomes: when no send
affordance matches it returns false, when its body raises it returns
false, and the Connector turns a false verdict into the resolved skip
value rather than a rejection whenever its own clicks do not raise. -/
theorem dialog_resolver_total :
    (∀ d : DialogEnv, d.sendButtonFound = false → handleConnectionDialog d = false) ∧
    (∀ (d : DialogEnv) (r : String), handleDialogBody d = Except.error r →
        handleConnectionDialog d = false) ∧
    (∀ e : ProfileEnv,
        e.navigationThrows = false → e.directClickThrows = false →
        e.moreClickThrows = false → e.optionClickThrows = false →
        handleConnectionDialog e.dialog = false →
        (tryConnectRun e).1 = Except.ok false) := by
  refine ⟨?_, ?_, ?_⟩
  · intro d hd
    obtain ⟨st, sf, ct⟩ := d
    cases st <;> simp_all [handleConnectionDialog, handleDialogBody]
  · intro d r hd
    unfold handleConnectionDialog
    rw [hd]
  · intro e hnav hdclick hmclick hoclick hdialog
    obtain ⟨nav, direct, dclick, js, more, mclick, opt, oclick, d⟩ := e
    simp only at hnav hdclick hmclick hoclick hdialog
    subst hnav hdclick hmclick hoclick
    cases direct <;> cases more <;> cases opt <;>
      simp_all [tryConnectRun]

/-- C7 witness: a dialog with no matching send affordance returns false, a
dialog whose search raises returns false, and a profile whose secondary
path ends in a false verdict yields the resolved value false. -/
theorem dialog_resolver_total_witness :
    handleConnectionDialog ⟨false, false, false⟩ = false ∧
    handleConnectionDialog ⟨true, false, false⟩ = false ∧
    (tryConnectRun ⟨false, false, false, false, true, false, true, false,
        ⟨false, false, false⟩⟩).1 = Except.ok false :=
  ⟨dialog_resolver_total.1 ⟨false, false, false⟩ rfl,
   dialog_resolver_total.2.1 ⟨true, false, false⟩ "dialog search failed" rfl,
   dialog_resolver_total.2.2
     ⟨false, false, false, false, true, false, true, false, ⟨false, false, false⟩⟩
     rfl rfl rfl rfl rfl⟩

/-- C9: for integers mn less than or equal to mx and any value of the
random source in the interval from 0 inclusive to 1 exclusive, the delay
computed by randomDelay lies in the closed interval from mn to mx. -/
theorem randomDelay_within_bounds (mn mx : ℤ) (r : ℚ)
    (hle : mn ≤ mx) (h0 : 0 ≤ r) (h1 : r < 1) :
    mn ≤ randomDelayValue mn mx r ∧ randomDelayValue mn mx r ≤ mx := by
  unfold randomDelayValue
  have hnpos : (0 : ℤ) < mx - mn + 1 := by omega
  have hnq : (0 : ℚ) < ((mx - mn + 1 : ℤ) : ℚ) := by exact_mod_cast hnpos
  have hlow : (0 : ℤ) ≤ Int.floor (r * ((mx - mn + 1 : ℤ) : ℚ)) := by
    apply Int.le_floor.mpr
    have hmul : (0 : ℚ) ≤ r * ((mx - mn + 1 : ℤ) : ℚ) :=
      mul_nonneg h0 (le_of_lt hnq)
    simpa using hmul
  have hup : Int.floor (r * ((mx - mn + 1 : ℤ) : ℚ)) < mx - mn + 1 := by
    apply Int.floor_lt.mpr
    calc r * ((mx - mn + 1 : ℤ) : ℚ) < 1 * ((mx - mn + 1 : ℤ) : ℚ) :=
          mul_lt_mul_of_pos_right h1 hnq
      _ = ((mx - mn + 1 : ℤ) : ℚ) := one_mul _
  omega

/-- C9 witness: with mn 2, mx 4 and a random value of 0 the computed delay
is within the interval from 2 to 4. -/
theorem randomDelay_within_bounds_witness :
    2 ≤ randomDelayValue 2 4 0 ∧ randomDelayValue 2 4 0 ≤ 4 :=
  randomDelay_within_bounds 2 4 0 (by norm_num) le_rfl (by norm_num)

/-- C10: on a member card exposing a direct Connect button, the dedup set
processedProfiles is neither updated (the resulting state carries the same
set) nor consulted (the success counter after the card does not depend on
the set), since the dedup check and insertion live only on the
profile-visit path. -/
theorem direct_card_preserves_processedProfiles (e : CardEnv) (s : RunState)
    (hdirect : e.directCardButton = true) :
    (processCard e s).processedProfiles = s.processedProfiles ∧
    (∀ P : List String,
        (processCard e ⟨s.connectionsAttempted, P⟩).connectionsAttempted =
          (processCard e s).connectionsAttempted) := by
  cases hdt : e.degreeTextE with
  | error msg => simp [processCard, hdt]
  | ok dt =>
      cases hdq : disqualifyingDegree dt with
      | true => simp [processCard, hdt, hdq]
      | false =>
          cases hct : e.directCardClickThrows with
          | true => simp [processCard, hdt, hdq, hdirect, hct]
          | false => simp [processCard, hdt, hdq, hdirect, hct]

/-- C10 witness: a concrete direct-button card leaves a concrete dedup set
unchanged and advances the counter identically when the set is replaced. -/
theorem direct_card_preserves_processedProfiles_witness :
    (processCard
        ⟨Except.ok (some "2nd"), true, false, ⟨false, false, false⟩,
         Except.ok "A", false, Except.ok none, false, false, false, false,
         ⟨false, false, false⟩⟩
        ⟨0, ["X"]⟩).processedProfiles = (⟨0, ["X"]⟩ : RunState).processedProfiles ∧
    (∀ P : List String,
        (processCard
            ⟨Except.ok (some "2nd"), true, false, ⟨false, false, false⟩,
             Except.ok "A", false, Except.ok none, false, false, false, false,
             ⟨false, false, false⟩⟩
            ⟨(⟨0, ["X"]⟩ : RunState).connectionsAttempted, P⟩).connectionsAttempted =
          (processCard
              ⟨Except.ok (some "2nd"), true, false, ⟨false, false, false⟩,
               Except.ok "A", false, Except.ok none, false, false, false, false,
               ⟨false, false, false⟩⟩
              ⟨0, ["X"]⟩).connectionsAttempted) :=
  direct_card_preserves_processedProfiles
    ⟨Except.ok (some "2nd"), true, false, ⟨false, false, false⟩,
     Except.ok "A", false, Except.ok none, false, false, false, false,
     ⟨false, false, false⟩⟩
    ⟨0, ["X"]⟩ rfl
